import Mathlib

/-
Verification of the NetTester session-transport and command-catalog layer.

The definitions below are a shallow embedding of the Python sources:
  src/utils/serial_connection.py   (SerialConnection)
  src/utils/telnet_connection.py   (TelnetConnection)
  src/utils/ssh_tools.py           (SSHConnection)
  src/utils/command_manager.py     (CommandManager)

Text is modelled as List Char.  Python regular-expression prompt patterns
(all of the shape word-chars+ literal-suffix whitespace* end-of-line, or a
plain literal) are embedded as executable matchers.  The byte streams read
from the device are modelled as explicit event lists: one event per poll
tick, either the arrival of a character / chunk or a tick with no data; the
end of the event list is the wall-clock deadline of the read loop.
-/

deriving instance DecidableEq for Except

/-- Python str.isspace characters relevant to ASCII device output
(the \s class of the prompt regexes). -/
def isPySpace (c : Char) : Bool :=
  c = ' ' || c = '\t' || c = '\n' || c = '\r' || c = '\x0b' || c = '\x0c'

/-- Characters matched by the regex class [a-zA-Z0-9\-_] used in every
prompt pattern. -/
def isWordChar (c : Char) : Bool :=
  c.isAlpha || c.isDigit || c = '-' || c = '_'

/-- Python str.strip() on a character list. -/
def pyStrip (l : List Char) : List Char :=
  ((l.dropWhile isPySpace).reverse.dropWhile isPySpace).reverse

/-- Python str.strip() on a string. -/
def pyStripStr (s : String) : String :=
  String.mk (pyStrip s.data)

/-- Index of the first occurrence of the literal needle in the haystack
(Python str.find restricted to literal patterns); none if absent. -/
def findIn (p : List Char) : List Char → Option Nat
  | [] => if p.isEmpty then some 0 else none
  | l@(_ :: t) => if p.isPrefixOf l then some 0 else (findIn p t).map (· + 1)

/-- Python substring containment, needle then haystack. -/
def containsSub (p s : List Char) : Bool :=
  (findIn p s).isSome

/-- Matcher for the regex fragment \s*$ starting at the current position.
With ml (re.MULTILINE) the $ anchor accepts any newline position; without
it only the end of the string (a trailing run of \s characters reaches it
in both cases). -/
def wsLineEnd (ml : Bool) : List Char → Bool
  | [] => true
  | c :: r => if ml && c = '\n' then true else isPySpace c && wsLineEnd ml r

/-- Continuation of the prompt regex [a-zA-Z0-9\-_]+lit\s*$ after at least
one word character has been consumed: either the literal suffix starts here
and is followed by \s*$, or another word character is consumed. -/
def promptCont (lit : List Char) (ml : Bool) : List Char → Bool
  | [] => false
  | l@(c :: r) =>
    (lit.isPrefixOf l && wsLineEnd ml (l.drop lit.length)) ||
    (isWordChar c && promptCont lit ml r)

/-- re.match of the prompt regex [a-zA-Z0-9\-_]+lit\s*$ (anchored at the
start of the text). -/
def promptAtStart (lit : List Char) (ml : Bool) : List Char → Bool
  | [] => false
  | c :: r => isWordChar c && promptCont lit ml r

/-- re.search of the prompt regex [a-zA-Z0-9\-_]+lit\s*$. -/
def promptSearch (lit : List Char) (ml : Bool) : List Char → Bool
  | [] => false
  | l@(_ :: r) => promptAtStart lit ml l || promptSearch lit ml r

/-- re.match of a regex of the shape lit\s*$ (e.g. Password:\s*$). -/
def litAtStart (lit : List Char) (ml : Bool) (l : List Char) : Bool :=
  lit.isPrefixOf l && wsLineEnd ml (l.drop lit.length)

/-- re.search of a regex of the shape lit\s*$. -/
def litEndSearch (lit : List Char) (ml : Bool) : List Char → Bool
  | [] => false
  | l@(_ :: r) => litAtStart lit ml l || litEndSearch lit ml r

/-- The prompt patterns of SerialConnection / TelnetConnection. -/
inductive PromptPat where
  | userP | enableP | configP | interfaceP | vlanP
  | passwordP | pressReturnP | initDialogP
deriving DecidableEq, Repr

/-- re.search of a prompt pattern against accumulated output; ml is the
re.MULTILINE flag (passed by the serial and telnet read loops, absent in
the telnet handshake searches). -/
def matchesPat (ml : Bool) : PromptPat → List Char → Bool
  | .userP, s => promptSearch ">".data ml s
  | .enableP, s => promptSearch "#".data ml s
  | .configP, s => promptSearch "(config)#".data ml s
  | .interfaceP, s => promptSearch "(config-if)#".data ml s
  | .vlanP, s => promptSearch "(config-vlan)#".data ml s
  | .passwordP, s => litEndSearch "Password:".data ml s
  | .pressReturnP, s => containsSub "Press RETURN to get started".data s
  | .initDialogP, s => containsSub "Initial configuration dialog? [yes/no]:".data s

/-- re.match (anchored, no flags) of a prompt pattern against a single
line, as used when stripping the echoed command and trailing prompt. -/
def matchStartPat : PromptPat → List Char → Bool
  | .userP, l => promptAtStart ">".data false l
  | .enableP, l => promptAtStart "#".data false l
  | .configP, l => promptAtStart "(config)#".data false l
  | .interfaceP, l => promptAtStart "(config-if)#".data false l
  | .vlanP, l => promptAtStart "(config-vlan)#".data false l
  | .passwordP, l => litAtStart "Password:".data false l
  | .pressReturnP, l => "Press RETURN to get started".data.isPrefixOf l
  | .initDialogP, l => "Initial configuration dialog? [yes/no]:".data.isPrefixOf l

/-- Python str.splitlines restricted to the line breaks that occur in
device output (\n, \r\n, \r). -/
def pySplitlinesAux (cur : List Char) : List Char → List (List Char)
  | [] => if cur.isEmpty then [] else [cur]
  | '\r' :: '\n' :: r => cur :: pySplitlinesAux [] r
  | '\n' :: r => cur :: pySplitlinesAux [] r
  | '\r' :: r => cur :: pySplitlinesAux [] r
  | c :: r => pySplitlinesAux (cur ++ [c]) r

/-- Python str.splitlines. -/
def pySplitlines (l : List Char) : List (List Char) :=
  pySplitlinesAux [] l

/-! ## Serial transport (src/utils/serial_connection.py) -/

/-- Errors raised by SerialConnection (SerialConnectionError / CommandError
/ ValueError), kept structural: timeoutErr is the SerialConnectionError
raised by _read_until and carries the patterns waited for and the partial
output collected; cmdFailed is the CommandError re-wrap performed by the
outer except clause of send_command. -/
inductive SerialErr where
  | notConnected (msg : String)
  | timeoutErr (patterns : List PromptPat) (collected : List Char)
  | connError (msg : String)
  | cmdError (msg : String)
  | cmdFailed (cmd : String) (inner : SerialErr)
deriving DecidableEq, Repr

/-- The pyserial handle: whether the port is open, and the byte strings
written to it (serial.write calls), in order. -/
structure SerialHandle where
  is_open : Bool
  sent : List String
deriving DecidableEq, Repr

/-- The fields of SerialConnection set by __init__. -/
structure SerialState where
  port : String
  baudrate : Int
  timeout : Rat
  parity : String
  stopbits : Rat
  bytesize : Int
  xonxoff : Bool
  rtscts : Bool
  serial : Option SerialHandle
  in_enable_mode : Bool
  in_config_mode : Bool
deriving DecidableEq, Repr

/-- SerialConnection.__init__: eager validation of every physical-layer
parameter, in source order; on success no handle is opened (serial = none).
The isinstance checks of the source are enforced by the Lean types. -/
def serialInit (port : String) (baudrate : Int) (timeout : Rat)
    (parity : String) (stopbits : Rat) (bytesize : Int)
    (xonxoff rtscts : Bool) : Except String SerialState :=
  if port = "" then .error "Port cannot be empty"
  else if baudrate ≤ 0 then .error "Baudrate must be a positive integer"
  else if timeout ≤ 0 then .error "Timeout must be a positive number"
  else if ¬ (parity ∈ (["N", "E", "O", "M", "S"] : List String)) then
    .error "Invalid parity value"
  else if ¬ (stopbits ∈ ([1, 3/2, 2] : List Rat)) then
    .error "Invalid stopbits value"
  else if ¬ (bytesize ∈ ([5, 6, 7, 8] : List Int)) then
    .error "Invalid bytesize value"
  else .ok { port := port, baudrate := baudrate, timeout := timeout,
             parity := parity, stopbits := stopbits, bytesize := bytesize,
             xonxoff := xonxoff, rtscts := rtscts, serial := none,
             in_enable_mode := false, in_config_mode := false }

/-- SerialConnection.is_connected: the handle exists and reports open. -/
def serialIsConnected (st : SerialState) : Bool :=
  match st.serial with
  | some h => h.is_open
  | none => false

/-- self.serial.write (only reachable with a live handle). -/
def serialWrite (st : SerialState) (data : String) : SerialState :=
  { st with serial := st.serial.map (fun h => { h with sent := h.sent ++ [data] }) }

/-- SerialConnection._read_until.  One event per 0.1 s poll tick: some c is
the arrival of one decoded character, none a tick without data; the end of
the event list is the wall-clock deadline.  After every character the
accumulated output is tested against each pattern (re.MULTILINE) in order;
reaching the deadline raises SerialConnectionError carrying the patterns
and the partial output (no further data is waiting at the deadline in this
arrival model, so the final drain of the source adds nothing). -/
def readUntil (pats : List PromptPat) (output : List Char) :
    List (Option Char) → Except SerialErr (List Char × PromptPat)
  | [] => .error (.timeoutErr pats output)
  | none :: evs => readUntil pats output evs
  | some c :: evs =>
    let out := output ++ [c]
    match pats.find? (fun p => matchesPat true p out) with
    | some p => .ok (out, p)
    | none => readUntil pats out evs

/-- Pop the event list for the next _read_until call from the session
script (an exhausted script reads as an immediately-elapsing window). -/
def popScript (script : List (List (Option Char))) :
    List (Option Char) × List (List (Option Char)) :=
  match script with
  | [] => ([], [])
  | e :: r => (e, r)

/-- SerialConnection._enter_enable_mode: sends enable, waits for the
enable or password prompt; on a password prompt sends a bare newline and
re-waits for the enable prompt; failing to reach the enable prompt raises;
on success records in_enable_mode := true. -/
def serialEnterEnable (st : SerialState) (script : List (List (Option Char))) :
    Except SerialErr (SerialState × List (List (Option Char))) :=
  if st.in_enable_mode then .ok (st, script)
  else
    let st1 := serialWrite st "enable\n"
    let (ev1, script1) := popScript script
    match readUntil [.enableP, .passwordP] [] ev1 with
    | .error e => .error e
    | .ok (_, pat) =>
      match pat with
      | .passwordP =>
        let st2 := serialWrite st1 "\n"
        let (ev2, script2) := popScript script1
        match readUntil [.enableP] [] ev2 with
        | .error e => .error e
        | .ok (_, pat2) =>
          if pat2 = .enableP then
            .ok ({ st2 with in_enable_mode := true }, script2)
          else .error (.connError "Failed to enter enable mode")
      | _ =>
        if pat = .enableP then
          .ok ({ st1 with in_enable_mode := true }, script1)
        else .error (.connError "Failed to enter enable mode")

/-- Strip the echoed command from the first output line
(lines[0].strip() == command.strip()). -/
def stripEcho (lines : List (List Char)) (cmd : String) : List (List Char) :=
  match lines with
  | [] => []
  | first :: rest => if pyStrip first = pyStrip cmd.data then rest else first :: rest

/-- Drop the last line when it is a prompt line (the re.match checks on
lines[-1]). -/
def dropLastIf (lines : List (List Char)) (p : List Char → Bool) : List (List Char) :=
  match lines.getLast? with
  | some last => if p last then lines.dropLast else lines
  | none => lines

/-- '\n'.join(lines).strip() -/
def joinStrip (lines : List (List Char)) : String :=
  pyStripStr (String.mk (List.intercalate ['\n'] lines))

/-- Body of SerialConnection.send_command inside the try block (the
per-read device input comes from the session script, one entry per
_read_until call). -/
def serialSendBody (st : SerialState) (cmd : String)
    (script : List (List (Option Char))) : Except SerialErr (String × SerialState) :=
  let needEnable := ¬ st.in_enable_mode ∧ ¬ (pyStripStr cmd ∈ ["quit", "exit"])
  let step1 := if needEnable then serialEnterEnable st script else .ok (st, script)
  match step1 with
  | .error e => .error e
  | .ok (st1, script1) =>
    if needEnable ∧ st1.in_enable_mode = false then
      .error (.cmdError "Failed to enter enable mode")
    else if pyStripStr cmd = "configure terminal" then
      -- buffers are cleared before entering config mode; the read then
      -- waits specifically for the config prompt
      let st2 := serialWrite st1 (cmd ++ "\r\n")
      let (ev, _) := popScript script1
      match readUntil [.configP] [] ev with
      | .error e => .error e
      | .ok (out, pat) =>
        if pat = .configP then
          let st3 := { st2 with in_config_mode := true }
          let lines := dropLastIf (stripEcho (pySplitlines out) cmd) (matchStartPat .configP)
          .ok (joinStrip lines, st3)
        else .error (.cmdError "Failed to enter config mode")
    else
      let st2 :=
        if (pyStripStr cmd ∈ ["end", "exit"]) ∧ st1.in_config_mode then
          { st1 with in_config_mode := false }
        else st1
      let st3 := serialWrite st2 (cmd ++ "\r\n")
      let expected : PromptPat :=
        if st3.in_config_mode then .configP
        else if st3.in_enable_mode then .enableP
        else .userP
      let (ev, _) := popScript script1
      match readUntil [expected] [] ev with
      | .error e => .error e
      | .ok (out, _) =>
        let lines := dropLastIf (stripEcho (pySplitlines out) cmd)
          (fun l => matchStartPat expected l || matchStartPat .userP l ||
                    matchStartPat .enableP l || matchStartPat .configP l)
        .ok (joinStrip lines, st3)

/-- SerialConnection.send_command: raises SerialConnectionError when not
connected (outside the try block); every exception raised inside the try
block is re-wrapped into CommandError by the except clauses. -/
def serialSendCommand (st : SerialState) (cmd : String)
    (script : List (List (Option Char))) : Except SerialErr (String × SerialState) :=
  if ¬ serialIsConnected st then .error (.notConnected "Serial port not connected")
  else
    match serialSendBody st cmd script with
    | .ok r => .ok r
    | .error e => .error (.cmdFailed cmd e)

/-- SerialConnection.disconnect: best-effort; when a live handle exists it
tries send_command "end" (if mid-config) and "terminal length 24",
swallowing their exceptions, then closes the port; the finally block
always nulls the handle and resets both mode flags.  A swallowed exception
leaves the pre-call state here; this is observationally equal to the
source because the handle is nulled and the flags overwritten right
after. -/
def serialDisconnect (st : SerialState)
    (scriptEnd scriptTerm : List (List (Option Char))) : SerialState :=
  let st1 : SerialState :=
    match st.serial with
    | some h =>
      if h.is_open then
        let stA : SerialState :=
          if st.in_config_mode then
            match serialSendCommand st "end" scriptEnd with
            | .ok (_, s) => s
            | .error _ => st
          else st
        let stB : SerialState :=
          match serialSendCommand stA "terminal length 24" scriptTerm with
          | .ok (_, s) => s
          | .error _ => stA
        { stB with serial := stB.serial.map (fun hh => { hh with is_open := false }) }
      else st
    | none => st
  { st1 with serial := none, in_enable_mode := false, in_config_mode := false }
/-! ## Telnet transport (src/utils/telnet_connection.py) -/

/-- Errors raised by TelnetConnection (TelnetConnectionError /
CommandError). -/
inductive TelnetErr where
  | notConnected (msg : String)
  | usernameRequired (msg : String)
  | connError (msg : String)
  | cmdFailed (cmd : String) (msg : String)
deriving DecidableEq, Repr

/-- The raw socket: the byte strings passed to socket.send, in order. -/
structure TelnetSocket where
  sent : List String
deriving DecidableEq, Repr

/-- The fields of TelnetConnection set by __init__ (connected models
self._connected). -/
structure TelnetState where
  host : String
  username : Option String
  password : Option String
  port : Int
  timeout : Rat
  socket : Option TelnetSocket
  connected : Bool
  in_enable_mode : Bool
  in_config_mode : Bool
  in_interface_mode : Bool
  in_vlan_mode : Bool
deriving DecidableEq, Repr

/-- TelnetConnection.__init__. -/
def telnetInit (host : String) (username password : Option String)
    (port : Int) (timeout : Rat) : Except String TelnetState :=
  if host = "" then .error "Host cannot be empty"
  else if port ≤ 0 then .error "Port must be a positive integer"
  else if timeout ≤ 0 then .error "Timeout must be a positive number"
  else .ok { host := host, username := username, password := password,
             port := port, timeout := timeout, socket := none,
             connected := false, in_enable_mode := false,
             in_config_mode := false, in_interface_mode := false,
             in_vlan_mode := false }

/-- TelnetConnection.is_connected. -/
def telnetIsConnected (st : TelnetState) : Bool :=
  st.connected && st.socket.isSome

/-- socket.send. -/
def telnetWrite (st : TelnetState) (data : String) : TelnetState :=
  { st with socket := st.socket.map (fun s => { s with sent := s.sent ++ [data] }) }

/-- The five command prompt patterns checked by _read_until_prompt, tested
in source order with re.MULTILINE (the output returned is the same
whichever fires, so only the disjunction matters). -/
def anyPrompt5 (out : List Char) : Bool :=
  matchesPat true .userP out || matchesPat true .enableP out ||
  matchesPat true .configP out || matchesPat true .interfaceP out ||
  matchesPat true .vlanP out

/-- TelnetConnection._read_until_prompt.  One event per socket.recv call:
some chunk is received data (an empty chunk is ignored, as the source's
`if data:` guard does), none is a socket.timeout that continues the loop;
the end of the event list is the wall-clock deadline, at which the
accumulated output is returned normally — this function never raises. -/
def telnetReadUntilPrompt (output : List Char) :
    List (Option (List Char)) → List Char
  | [] => output
  | none :: evs => telnetReadUntilPrompt output evs
  | some d :: evs =>
    if d.isEmpty then telnetReadUntilPrompt output evs
    else
      let out := output ++ d
      if anyPrompt5 out then out else telnetReadUntilPrompt out evs

/-- TelnetConnection.send_command: raises TelnetConnectionError when not
connected; otherwise sends the command, sleeps, reads until a prompt or
the deadline, and returns the output.  The except clause wrapping
send/read exceptions into CommandError is unreachable here because both
operations are total in this model. -/
def telnetSendCommand (st : TelnetState) (cmd : String)
    (events : List (Option (List Char))) : Except TelnetErr (String × TelnetState) :=
  if ¬ telnetIsConnected st then .error (.notConnected "Not connected to switch")
  else
    let st1 := telnetWrite st (cmd ++ "\r\n")
    let out := telnetReadUntilPrompt [] events
    .ok (String.mk out, st1)

/-- TelnetConnection.disconnect: closes the socket (exceptions swallowed),
nulls it, clears the connected flag and resets every mode flag. -/
def telnetDisconnect (st : TelnetState) : TelnetState :=
  { st with socket := none, connected := false, in_enable_mode := false,
            in_config_mode := false, in_interface_mode := false,
            in_vlan_mode := false }

/-- re.search(USERNAME_PROMPT, output) — no flags. -/
def usernameSearch (out : List Char) : Bool :=
  litEndSearch "Username:".data false out

/-- re.search(PASSWORD_PROMPT, output) — no flags. -/
def passwordSearch (out : List Char) : Bool :=
  litEndSearch "Password:".data false out

/-- Pop the text returned by the next _read_until_prompt call from the
handshake script. -/
def popReads (reads : List (List Char)) : List Char × List (List Char) :=
  match reads with
  | [] => ([], [])
  | r :: rest => (r, rest)

/-- The handshake position after a step: current state, the output of the
last _read_until_prompt, and the reads still to come. -/
abbrev HandshakePos : Type := TelnetState × List Char × List (List Char)

/-- The password step of _handle_initial_connection: on a password prompt
send the configured password, or a bare newline when none is configured
(the "try pressing enter" path), and read again. -/
def telnetHandshakePw (t : HandshakePos) : HandshakePos :=
  if passwordSearch t.2.1 then
    match t.1.password with
    | some p =>
      let s := telnetWrite t.1 (p ++ "\r\n")
      let (o, r) := popReads t.2.2
      (s, o, r)
    | none =>
      let s := telnetWrite t.1 "\r\n"
      let (o, r) := popReads t.2.2
      (s, o, r)
  else t

/-- The Press-RETURN step of _handle_initial_connection. -/
def telnetHandshakeRet (t : HandshakePos) : HandshakePos :=
  if containsSub "Press RETURN to get started".data t.2.1 then
    let s := telnetWrite t.1 "\r\n"
    let (o, r) := popReads t.2.2
    (s, o, r)
  else t

/-- The initial-configuration-dialog step of
_handle_initial_connection. -/
def telnetHandshakeDlg (t : HandshakePos) : TelnetState :=
  if containsSub "Initial configuration dialog".data t.2.1 then
    telnetWrite t.1 "no\r\n"
  else t.1

/-- The password / Press-RETURN / initial-dialog steps of
TelnetConnection._handle_initial_connection (everything after the
username step; none of these branches can raise). -/
def telnetHandshakeStep2 (st : TelnetState) (out : List Char)
    (reads : List (List Char)) : TelnetState :=
  telnetHandshakeDlg (telnetHandshakeRet (telnetHandshakePw (st, out, reads)))

/-- TelnetConnection._handle_initial_connection: reads the banner, answers
a username prompt with the configured username (raising
TelnetConnectionError when none is configured), then handles the
password / Press-RETURN / initial-dialog prompts.  reads holds the text
returned by each successive _read_until_prompt call. -/
def telnetHandshake (st : TelnetState) (reads : List (List Char)) :
    Except TelnetErr TelnetState :=
  let (out1, reads1) := popReads reads
  if usernameSearch out1 then
    match st.username with
    | some u =>
      let st1 := telnetWrite st (u ++ "\r\n")
      let (out2, reads2) := popReads reads1
      .ok (telnetHandshakeStep2 st1 out2 reads2)
    | none => .error (.usernameRequired "Username required but not provided")
  else .ok (telnetHandshakeStep2 st out1 reads1)

/-! ## SSH transport (src/utils/ssh_tools.py) -/

/-- Errors raised by SSHConnection (SSHConnectionError / CommandError). -/
inductive SSHErr where
  | notConnected (msg : String)
  | cmdError (msg : String)
deriving DecidableEq, Repr

/-- The paramiko transport object underlying the client. -/
structure SSHTransport where
  is_active : Bool
deriving DecidableEq, Repr

/-- The paramiko SSHClient: its transport is none until connect. -/
structure SSHClient where
  transport : Option SSHTransport
deriving DecidableEq, Repr

/-- The interactive shell channel: the strings passed to shell.send. -/
structure SSHShell where
  sent : List String
deriving DecidableEq, Repr

/-- The fields of SSHConnection set by __init__. -/
structure SSHState where
  host : String
  username : String
  password : String
  port : Int
  timeout : Rat
  client : SSHClient
  shell : Option SSHShell
deriving DecidableEq, Repr

/-- SSHConnection.__init__. -/
def sshInit (host username password : String) (port : Int) (timeout : Rat) :
    Except String SSHState :=
  if host = "" then .error "Host cannot be empty"
  else if username = "" then .error "Username cannot be empty"
  else if password = "" then .error "Password cannot be empty"
  else if port ≤ 0 then .error "Port must be a positive integer"
  else if timeout ≤ 0 then .error "Timeout must be a positive number"
  else .ok { host := host, username := username, password := password,
             port := port, timeout := timeout,
             client := { transport := none }, shell := none }

/-- SSHConnection.is_connected: the shell exists and the client's
transport exists and is active. -/
def sshIsConnected (st : SSHState) : Bool :=
  match st.shell, st.client.transport with
  | some _, some t => t.is_active
  | _, _ => false

/-- SSHConnection.send_command: raises SSHConnectionError when not
connected; otherwise sends the command, sleeps the wait interval, and
returns whatever bytes one recv call yields (modelled already decoded —
no prompt detection). -/
def sshSendCommand (st : SSHState) (cmd : String) (recvData : String) :
    Except SSHErr (String × SSHState) :=
  if ¬ sshIsConnected st then .error (.notConnected "Not connected to switch")
  else
    let st1 := { st with
      shell := st.shell.map (fun sh => { sh with sent := sh.sent ++ [cmd ++ "\n"] }) }
    .ok (recvData, st1)

/-- SSHConnection.disconnect: best-effort close of shell and client
(exceptions swallowed); the shell is nulled, and closing the client
deactivates its transport. -/
def sshDisconnect (st : SSHState) : SSHState :=
  { st with shell := none,
            client := { st.client with
              transport := st.client.transport.map (fun t => { t with is_active := false }) } }

/-! ## Command catalog (src/utils/command_manager.py)

Python dicts are modelled as association lists: assignment to an existing
key updates in place, a new key is appended (insertion order), deletion
removes the pair. -/

/-- One command definition of the JSON catalog.  expected_response is
optional because a JSON entry may omit the field (update_command always
writes it).  The values of a subcommands dict are opaque payload here. -/
structure CmdEntry where
  command : String
  expected_response : Option String := none
  parse_pattern : Option String := none
  subcommands : Option (List (String × String)) := none
deriving DecidableEq, Repr

/-- dict lookup. -/
def dictGet? {α : Type} (d : List (String × α)) (k : String) : Option α :=
  (d.find? (fun kv => kv.1 == k)).map (·.2)

/-- dict assignment d[k] = v. -/
def dictPut {α : Type} (d : List (String × α)) (k : String) (v : α) :
    List (String × α) :=
  if (d.find? (fun kv => kv.1 == k)).isSome then
    d.map (fun kv => if kv.1 == k then (k, v) else kv)
  else d ++ [(k, v)]

/-- del d[k]. -/
def dictDel {α : Type} (d : List (String × α)) (k : String) :
    List (String × α) :=
  d.filter (fun kv => kv.1 != k)

/-- self.commands: category → command name → definition. -/
abbrev Catalog : Type := List (String × List (String × CmdEntry))

/-- self.commands[category][command_name], none on either KeyError. -/
def lookupCommandDef (cm : Catalog) (cat name : String) : Option CmdEntry :=
  (dictGet? cm cat).bind (fun d => dictGet? d name)

/-! Python str.format for templates with named placeholders, as a one-pass
scanner: {name} substitutes, {{ and }} are literal braces, a missing key
raises KeyError (surfaced by format_command as the missing-parameter
ValueError), a stray brace raises a plain ValueError. -/

/-- Errors of str.format. -/
inductive FmtErr where
  | missingParam (key : String)
  | malformed
deriving DecidableEq, Repr

/-- kwargs lookup. -/
def lookupParam (kwargs : List (String × String)) (k : String) : Option String :=
  (kwargs.find? (fun kv => kv.1 == k)).map (·.2)

/-- Scanner state of the format pass: outside any field, just after an
opening or closing brace, or inside a field name. -/
inductive FSt where
  | norm
  | sawL
  | sawR
  | key (acc : List Char)
deriving DecidableEq, Repr

/-- One-pass str.format scanner. -/
def fmtAux (kwargs : List (String × String)) : FSt → List Char → Except FmtErr (List Char)
  | .norm, [] => .ok []
  | .norm, '{' :: r => fmtAux kwargs .sawL r
  | .norm, '}' :: r => fmtAux kwargs .sawR r
  | .norm, c :: r =>
    match fmtAux kwargs .norm r with
    | .ok s => .ok (c :: s)
    | .error e => .error e
  | .sawL, [] => .error .malformed
  | .sawL, '{' :: r =>
    match fmtAux kwargs .norm r with
    | .ok s => .ok ('{' :: s)
    | .error e => .error e
  | .sawL, '}' :: _ => .error .malformed
  | .sawL, c :: r => fmtAux kwargs (.key [c]) r
  | .sawR, '}' :: r =>
    match fmtAux kwargs .norm r with
    | .ok s => .ok ('}' :: s)
    | .error e => .error e
  | .sawR, _ => .error .malformed
  | .key _, [] => .error .malformed
  | .key acc, '}' :: r =>
    match lookupParam kwargs (String.mk acc) with
    | some v =>
      match fmtAux kwargs .norm r with
      | .ok s => .ok (v.data ++ s)
      | .error e => .error e
    | none => .error (.missingParam (String.mk acc))
  | .key acc, c :: r => fmtAux kwargs (.key (acc ++ [c])) r

/-- template.format(**kwargs). -/
def pyFormat (template : String) (kwargs : List (String × String)) :
    Except FmtErr String :=
  match fmtAux kwargs .norm template.data with
  | .ok s => .ok (String.mk s)
  | .error e => .error e

/-- The named placeholders a template requires, in order of appearance;
none when the template is malformed.  Same scan as fmtAux, keys only. -/
def phAux : FSt → List Char → Option (List String)
  | .norm, [] => some []
  | .norm, '{' :: r => phAux .sawL r
  | .norm, '}' :: r => phAux .sawR r
  | .norm, _ :: r => phAux .norm r
  | .sawL, [] => none
  | .sawL, '{' :: r => phAux .norm r
  | .sawL, '}' :: _ => none
  | .sawL, c :: r => phAux (.key [c]) r
  | .sawR, '}' :: r => phAux .norm r
  | .sawR, _ => none
  | .key _, [] => none
  | .key acc, '}' :: r => (phAux .norm r).map (fun ns => String.mk acc :: ns)
  | .key acc, c :: r => phAux (.key (acc ++ [c])) r

/-- The placeholders of a template. -/
def requiredPlaceholders (template : String) : Option (List String) :=
  phAux .norm template.data

/-- Errors raised by CommandManager methods: the KeyError of a failed
lookup, the ValueError("Missing required parameter") re-raise, and a
propagated formatting ValueError. -/
inductive CmdErr where
  | keyError (msg : String)
  | valueMissing (key : String)
  | valueFormat
deriving DecidableEq, Repr

/-- CommandManager.format_command: looks the command up (KeyError becomes
"Command not found"), formats it (KeyError from a missing kwarg becomes
the missing-parameter ValueError; other format errors propagate). -/
def format_command (cm : Catalog) (cat name : String)
    (kwargs : List (String × String)) : Except CmdErr String :=
  match lookupCommandDef cm cat name with
  | none => .error (.keyError ("Command not found: " ++ cat ++ "." ++ name))
  | some cd =>
    match pyFormat cd.command kwargs with
    | .ok s => .ok s
    | .error (.missingParam k) => .error (.valueMissing k)
    | .error .malformed => .error .valueFormat

/-- CommandManager.get_parse_pattern: .get('parse_pattern'), none on any
KeyError. -/
def get_parse_pattern (cm : Catalog) (cat name : String) : Option String :=
  match lookupCommandDef cm cat name with
  | some cd => cd.parse_pattern
  | none => none

/-! re.finditer for literal patterns: the scan visits every position left
to right, records a match where the pattern occurs, and resumes after the
matched text (one position further for an empty match) — the
non-overlapping leftmost semantics of the Python scanner.  skip counts the
positions still covered by the previous match. -/

/-- Positions (relative to off) of the non-overlapping matches of literal
p, scanning one position per step. -/
def finditerScan (p : List Char) : List Char → Nat → Nat → List Nat
  | [], off, skip => if skip = 0 && p.isEmpty then [off] else []
  | l@(_ :: r), off, skip =>
    if skip = 0 then
      if p.isPrefixOf l then off :: finditerScan p r (off + 1) (p.length - 1)
      else finditerScan p r (off + 1) 0
    else finditerScan p r (off + 1) (skip - 1)

/-- Match positions of re.finditer(p, s) for a literal pattern. -/
def reFinditerPos (p s : List Char) : List Nat :=
  finditerScan p s 0 0

/-- [match.group(0) for match in re.finditer(p, s)] for a literal
pattern. -/
def reFinditer (p s : List Char) : List (List Char) :=
  (reFinditerPos p s).map (fun j => (s.drop j).take p.length)

/-- CommandManager.parse_response: `if not pattern` treats both an absent
pattern and an empty-string pattern as unconfigured and returns the raw
response as a one-element list; otherwise the finditer matches. -/
def parse_response (cm : Catalog) (cat name : String) (response : String) :
    List String :=
  match get_parse_pattern cm cat name with
  | none => [response]
  | some p =>
    if p = "" then [response]
    else (reFinditer p.data response.data).map String.mk

/-- CommandManager.get_expected_response: any KeyError (missing category,
command or field, or a missing format kwarg) yields ""; a malformed
template raises ValueError, which is not caught. -/
def get_expected_response (cm : Catalog) (cat name : String)
    (kwargs : List (String × String)) : Except CmdErr String :=
  match lookupCommandDef cm cat name with
  | none => .ok ""
  | some cd =>
    match cd.expected_response with
    | none => .ok ""
    | some t =>
      match pyFormat t kwargs with
      | .ok s => .ok s
      | .error (.missingParam _) => .ok ""
      | .error .malformed => .error .valueFormat

/-- CommandManager.verify_response: an empty expected response verifies
anything; otherwise substring containment of the formatted expected
response in the raw response. -/
def verify_response (cm : Catalog) (cat name : String) (response : String)
    (kwargs : List (String × String)) : Except CmdErr Bool :=
  match get_expected_response cm cat name kwargs with
  | .error e => .error e
  | .ok expected =>
    if expected = "" then .ok true
    else .ok (containsSub expected.data response.data)

/-! The mutating operations, over the pair (in-memory catalog, on-disk
catalog).  save_commands writes the in-memory catalog to disk. -/

/-- CommandManager.update_command: ensures the category dict exists,
overwrites the entry with command and expected_response, and adds
parse_pattern / subcommands only when truthy.  It does not call
save_commands, so the disk component is untouched. -/
def updateCommandOp (st : Catalog × Catalog) (category command_name : String)
    (command expected_response : String) (parse_pattern : Option String)
    (subcommands : Option (List (String × String))) : Catalog × Catalog :=
  let commands := st.1
  let commands1 :=
    if (dictGet? commands category).isSome then commands
    else commands ++ [(category, [])]
  let entry : CmdEntry :=
    { command := command, expected_response := some expected_response }
  let entry :=
    match parse_pattern with
    | some pp => if pp = "" then entry else { entry with parse_pattern := some pp }
    | none => entry
  let entry :=
    match subcommands with
    | some sc => if sc.isEmpty then entry else { entry with subcommands := some sc }
    | none => entry
  let catDict :=
    match dictGet? commands1 category with
    | some c => c
    | none => []
  (dictPut commands1 category (dictPut catDict command_name entry), st.2)

/-- CommandManager.add_new_category: adds an empty category when absent
and saves to disk; a no-op when the category exists. -/
def addNewCategoryOp (st : Catalog × Catalog) (category : String) :
    Catalog × Catalog :=
  if (dictGet? st.1 category).isSome then st
  else
    let m := st.1 ++ [(category, [])]
    (m, m)

/-- CommandManager.remove_command: deletes the entry when present and
saves to disk; a no-op otherwise. -/
def removeCommandOp (st : Catalog × Catalog) (category command_name : String) :
    Catalog × Catalog :=
  match dictGet? st.1 category with
  | some c =>
    if (dictGet? c command_name).isSome then
      let m := dictPut st.1 category (dictDel c command_name)
      (m, m)
    else st
  | none => st

/-! ## Example sessions and states used by the concrete theorems -/

/-- A live serial session in enable mode. -/
def serialSessionEx : SerialState :=
  { port := "COM1", baudrate := 9600, timeout := 10, parity := "N",
    stopbits := 1, bytesize := 8, xonxoff := false, rtscts := false,
    serial := some { is_open := true, sent := [] },
    in_enable_mode := true, in_config_mode := false }

/-- Device input delivering a config-mode prompt. -/
def cfgPromptEv : List (Option Char) := "\nSwitch(config)#".data.map some

/-- Device input delivering an enable-mode prompt. -/
def enablePromptEv : List (Option Char) := "\nSwitch#".data.map some

/-- serialSessionEx after a successful "configure terminal". -/
def serialSessionCfg : SerialState :=
  { serialSessionEx with
    serial := some { is_open := true, sent := ["configure terminal\r\n"] },
    in_config_mode := true }

/-- serialSessionCfg after a successful "end". -/
def serialSessionEnded : SerialState :=
  { serialSessionEx with
    serial := some { is_open := true, sent := ["configure terminal\r\n", "end\r\n"] },
    in_config_mode := false }

/-- A fresh serial transport (the state serialInit returns). -/
def serialFresh : SerialState :=
  { port := "COM1", baudrate := 9600, timeout := 10, parity := "N",
    stopbits := 1, bytesize := 8, xonxoff := false, rtscts := false,
    serial := none, in_enable_mode := false, in_config_mode := false }

/-- A live telnet session (flags as connect leaves them when enable-mode
entry succeeded). -/
def telnetSessionEx : TelnetState :=
  { host := "10.0.0.1", username := some "admin", password := none,
    port := 23, timeout := 10, socket := some { sent := [] },
    connected := true, in_enable_mode := true, in_config_mode := false,
    in_interface_mode := false, in_vlan_mode := false }

/-- Telnet device input delivering a config-mode prompt in one chunk. -/
def telnetCfgEvents : List (Option (List Char)) := [some "Switch(config)#".data]

/-- telnetSessionEx after send_command "configure terminal" with
telnetCfgEvents. -/
def telnetSessionAfter : TelnetState :=
  { telnetSessionEx with socket := some { sent := ["configure terminal\r\n"] } }

/-- A fresh telnet transport (the state telnetInit returns). -/
def telnetFresh : TelnetState :=
  { host := "10.0.0.1", username := some "admin", password := some "pw",
    port := 23, timeout := 10, socket := none, connected := false,
    in_enable_mode := false, in_config_mode := false,
    in_interface_mode := false, in_vlan_mode := false }

/-- A fresh SSH transport (the state sshInit returns). -/
def sshFresh : SSHState :=
  { host := "10.0.0.1", username := "admin", password := "pw", port := 22,
    timeout := 10, client := { transport := none }, shell := none }

/-- A live SSH session. -/
def sshSessionEx : SSHState :=
  { sshFresh with client := { transport := some { is_active := true } },
                  shell := some { sent := [] } }

/-- The catalog of end-to-end scenario 1. -/
def vlanCatalog : Catalog :=
  [("vlan_commands",
    [("create_vlan",
      { command := "vlan {vlan_id}\n name {vlan_name}",
        expected_response := some "" })])]

/-- A catalog whose single command has an empty-string parse pattern. -/
def emptyPatternCatalog : Catalog :=
  [("c", [("n", { command := "x", parse_pattern := some "" })])]

/-- A catalog with a non-empty expected response. -/
def verifyCatalog : Catalog :=
  [("c", [("n", { command := "show vlan", expected_response := some "VLAN0010" })])]

/-- A catalog whose single command has a non-empty (literal) parse
pattern. -/
def patternCatalog : Catalog :=
  [("c", [("n", { command := "show vlan", parse_pattern := some "VLAN" })])]

/-! # Theorems -/

section Theorems

/-- C2: for every transport (Serial, SSH, Telnet) and every command,
send_command on a transport that is not connected raises the transport's
"not connected" connection error and nothing else happens; moreover the
state a constructor returns and the state disconnect leaves behind are
both not connected, so this covers every call before connect() and after
disconnect(). -/
theorem sendCommand_not_connected :
    (∀ (st : SerialState) (cmd : String) script, serialIsConnected st = false →
       serialSendCommand st cmd script = .error (.notConnected "Serial port not connected")) ∧
    (∀ (st : TelnetState) (cmd : String) events, telnetIsConnected st = false →
       telnetSendCommand st cmd events = .error (.notConnected "Not connected to switch")) ∧
    (∀ (st : SSHState) (cmd recv : String), sshIsConnected st = false →
       sshSendCommand st cmd recv = .error (.notConnected "Not connected to switch")) ∧
    (∀ p b t par sb bs x r st, serialInit p b t par sb bs x r = .ok st →
       serialIsConnected st = false) ∧
    (∀ h u pw p t st, telnetInit h u pw p t = .ok st → telnetIsConnected st = false) ∧
    (∀ h u pw p t st, sshInit h u pw p t = .ok st → sshIsConnected st = false) ∧
    (∀ st s1 s2, serialIsConnected (serialDisconnect st s1 s2) = false) ∧
    (∀ st, telnetIsConnected (telnetDisconnect st) = false) ∧
    (∀ st, sshIsConnected (sshDisconnect st) = false) := by
  refine ⟨?_, ?_, ?_, ?_, ?_, ?_, ?_, ?_, ?_⟩
  · intro st cmd script h
    simp [serialSendCommand, h]
  · intro st cmd events h
    simp [telnetSendCommand, h]
  · intro st cmd recv h
    simp [sshSendCommand, h]
  · intro p b t par sb bs x r st h
    unfold serialInit at h
    split_ifs at h
    simp only [Except.ok.injEq] at h
    subst h
    rfl
  · intro h u pw p t st hh
    unfold telnetInit at hh
    split_ifs at hh
    simp only [Except.ok.injEq] at hh
    subst hh
    rfl
  · intro h u pw p t st hh
    unfold sshInit at hh
    split_ifs at hh
    simp only [Except.ok.injEq] at hh
    subst hh
    rfl
  · intro st s1 s2
    simp [serialDisconnect, serialIsConnected]
  · intro st
    simp [telnetDisconnect, telnetIsConnected]
  · intro st
    simp [sshDisconnect, sshIsConnected]

/-- C2 witness: concrete not-connected states of the three transports, as
produced by the constructors, on which send_command fails with the
not-connected error. -/
theorem sendCommand_not_connected_witness :
    serialSendCommand serialFresh "show vlan" [] =
      .error (.notConnected "Serial port not connected") ∧
    telnetSendCommand telnetFresh "show vlan" [] =
      .error (.notConnected "Not connected to switch") ∧
    sshSendCommand sshFresh "show vlan" "" =
      .error (.notConnected "Not connected to switch") ∧
    serialIsConnected serialFresh = false ∧
    telnetIsConnected telnetFresh = false ∧
    sshIsConnected (sshDisconnect sshSessionEx) = false :=
  ⟨sendCommand_not_connected.1 serialFresh "show vlan" [] (by decide),
   sendCommand_not_connected.2.1 telnetFresh "show vlan" [] (by decide),
   sendCommand_not_connected.2.2.1 sshFresh "show vlan" "" (by decide),
   sendCommand_not_connected.2.2.2.1 "COM1" 9600 10 "N" 1 8 false false
     serialFresh (by decide),
   sendCommand_not_connected.2.2.2.2.1 "10.0.0.1" (some "admin") (some "pw")
     23 10 telnetFresh (by decide),
   sendCommand_not_connected.2.2.2.2.2.2.2.2 sshSessionEx⟩

/-- C7: SerialConnection construction validates every physical-layer
parameter eagerly: any invalid parameter (empty port, non-positive baud
rate, non-positive timeout, parity outside N/E/O/M/S, stopbits outside
1/1.5/2, bytesize outside 5..8) makes the constructor raise a ValueError,
and a successful construction opens no serial handle. -/
theorem serialInit_validation :
    (∀ (port : String) (baudrate : Int) (timeout : Rat) (parity : String)
       (stopbits : Rat) (bytesize : Int) (xonxoff rtscts : Bool),
       (port = "" ∨ baudrate ≤ 0 ∨ timeout ≤ 0 ∨
        parity ∉ (["N", "E", "O", "M", "S"] : List String) ∨
        stopbits ∉ ([1, 3/2, 2] : List Rat) ∨
        bytesize ∉ ([5, 6, 7, 8] : List Int)) →
       ∃ msg, serialInit port baudrate timeout parity stopbits bytesize
                xonxoff rtscts = .error msg) ∧
    (∀ port baudrate timeout parity stopbits bytesize xonxoff rtscts st,
       serialInit port baudrate timeout parity stopbits bytesize
         xonxoff rtscts = .ok st → st.serial = none) := by
  constructor
  · intro port baudrate timeout parity stopbits bytesize xonxoff rtscts hbad
    unfold serialInit
    split_ifs with h1 h2 h3 h4 h5 h6
    all_goals
      first
      | exact ⟨_, rfl⟩
      | (rcases hbad with h | h | h | h | h | h <;> simp_all)
  · intro port baudrate timeout parity stopbits bytesize xonxoff rtscts st h
    unfold serialInit at h
    split_ifs at h
    simp only [Except.ok.injEq] at h
    subst h
    rfl

/-- C7 witness: end-to-end scenario 2, baud rate 0 fails at construction;
and a fully valid construction opens no handle. -/
theorem serialInit_validation_witness :
    (∃ msg, serialInit "COM1" 0 10 "N" 1 8 false false = .error msg) ∧
    serialFresh.serial = none :=
  ⟨serialInit_validation.1 "COM1" 0 10 "N" 1 8 false false (by decide),
   serialInit_validation.2 "COM1" 9600 10 "N" 1 8 false false serialFresh (by decide)⟩

/-- C9: disconnect() on a transport that was never successfully connected
returns normally (the modelled disconnects are total functions, matching
the exception-swallowing source) and leaves the handle nulled with every
mode flag false; for SSH the shell handle is nulled. -/
theorem disconnect_never_connected :
    (∀ (st : SerialState) s1 s2, st.serial = none →
       serialDisconnect st s1 s2 =
         { st with serial := none, in_enable_mode := false, in_config_mode := false }) ∧
    (∀ (st : TelnetState), st.socket = none →
       telnetDisconnect st =
         { st with socket := none, connected := false, in_enable_mode := false,
                   in_config_mode := false, in_interface_mode := false,
                   in_vlan_mode := false }) ∧
    (∀ (st : SSHState), st.shell = none → (sshDisconnect st).shell = none) := by
  refine ⟨?_, ?_, ?_⟩
  · intro st s1 s2 h
    unfold serialDisconnect
    rw [h]
  · intro st _
    rfl
  · intro st _
    rfl

/-- C9 witness: fresh, never-connected transports of the three kinds. -/
theorem disconnect_never_connected_witness :
    serialDisconnect serialFresh [] [] = serialFresh ∧
    telnetDisconnect telnetFresh = telnetFresh ∧
    (sshDisconnect sshFresh).shell = none := by
  refine ⟨?_, ?_, disconnect_never_connected.2.2 sshFresh (by decide)⟩
  · rw [disconnect_never_connected.1 serialFresh [] [] (by decide)]
    rfl
  · rw [disconnect_never_connected.2.1 telnetFresh (by decide)]
    rfl

/-- serialEnterEnable never touches the config-mode flag. -/
theorem serialEnterEnable_config :
    ∀ (st : SerialState) script st1 script1,
      serialEnterEnable st script = .ok (st1, script1) →
      st1.in_config_mode = st.in_config_mode := by
  intro st script st1 script1 h
  unfold serialEnterEnable at h
  repeat' split at h
  all_goals
    first
    | (simp at h; done)
    | (simp only [Except.ok.injEq, Prod.mk.injEq] at h
       obtain ⟨h1, -⟩ := h
       subst h1
       simp [serialWrite])

/-- C1 (amended): for the Serial transport, every successful
send_command "configure terminal" leaves in_config_mode true, and from a
config-mode state every successful send_command "end" leaves it false;
the Telnet transport's send_command, however, never updates
in_config_mode at all — after a successful "configure terminal" the flag
keeps its previous value (false for a freshly connected session). -/
theorem config_mode_flag_tracking :
    (∀ (st : SerialState) script out st',
       serialSendCommand st "configure terminal" script = .ok (out, st') →
       st'.in_config_mode = true) ∧
    (∀ (st : SerialState) script out st',
       st.in_config_mode = true →
       serialSendCommand st "end" script = .ok (out, st') →
       st'.in_config_mode = false) ∧
    (∀ (st : TelnetState) cmd events out st',
       telnetSendCommand st cmd events = .ok (out, st') →
       st'.in_config_mode = st.in_config_mode) := by
  refine ⟨?_, ?_, ?_⟩
  · intro st script out st' h
    unfold serialSendCommand at h
    split at h
    · simp at h
    · split at h
      · rename_i r heq
        simp only [Except.ok.injEq] at h
        subst h
        simp only [serialSendBody] at heq
        repeat' split at heq
        all_goals
          first
          | (simp at heq; done)
          | (exact absurd (by decide)
              ‹¬pyStripStr "configure terminal" = "configure terminal"›)
          | (simp only [Except.ok.injEq, Prod.mk.injEq] at heq
             obtain ⟨-, h2⟩ := heq
             subst h2
             rfl)
      · simp at h
  · intro st script out st' hcfg h
    unfold serialSendCommand at h
    split at h
    · simp at h
    · split at h
      · rename_i r heq
        simp only [Except.ok.injEq] at h
        subst h
        simp only [serialSendBody] at heq
        split at heq
        · simp at heq
        · rename_i st1 script1 hstep
          have hpres : st1.in_config_mode = st.in_config_mode := by
            revert hstep
            split
            · exact fun hs => serialEnterEnable_config st script st1 script1 hs
            · intro hs
              simp only [Except.ok.injEq, Prod.mk.injEq] at hs
              obtain ⟨h1, -⟩ := hs
              subst h1
              rfl
          split at heq
          · simp at heq
          · split at heq
            · exact absurd ‹pyStripStr "end" = "configure terminal"› (by decide)
            · split at heq
              · simp at heq
              · simp only [Except.ok.injEq, Prod.mk.injEq] at heq
                obtain ⟨-, h2⟩ := heq
                subst h2
                split
                · simp [serialWrite]
                · rename_i hno
                  exact absurd ⟨by decide, hpres.trans hcfg⟩ hno
      · simp at h
  · intro st cmd events out st' h
    unfold telnetSendCommand at h
    split at h
    · simp at h
    · simp only [Except.ok.injEq, Prod.mk.injEq] at h
      obtain ⟨-, h2⟩ := h
      subst h2
      simp [telnetWrite]

/-- C1 counterexample: a live Telnet session whose send_command
"configure terminal" completes successfully — the device answered with a
config-mode prompt, visible in the returned output — yet in_config_mode
still reports false afterwards. -/
theorem telnet_config_mode_not_set :
    telnetSendCommand telnetSessionEx "configure terminal" telnetCfgEvents =
      .ok ("Switch(config)#", telnetSessionAfter) ∧
    telnetSessionAfter.in_config_mode = false := by
  constructor
  · decide
  · decide

/-- C1 witness: a concrete serial session entering and leaving config
mode, and a concrete telnet command leaving the flag unchanged. -/
theorem config_mode_flag_tracking_witness :
    serialSessionCfg.in_config_mode = true ∧
    serialSessionEnded.in_config_mode = false ∧
    telnetSessionAfter.in_config_mode = telnetSessionEx.in_config_mode :=
  ⟨config_mode_flag_tracking.1 serialSessionEx [cfgPromptEv] "" serialSessionCfg
     (by decide),
   config_mode_flag_tracking.2.1 serialSessionCfg [enablePromptEv] ""
     serialSessionEnded (by decide) (by decide),
   config_mode_flag_tracking.2.2 telnetSessionEx "configure terminal"
     telnetCfgEvents "Switch(config)#" telnetSessionAfter (by decide)⟩

/-- The serial read loop: when no pattern matches any cumulative output
during the whole deadline window, it raises the timeout error carrying
everything collected. -/
theorem readUntil_timeout_general :
    ∀ (evs : List (Option Char)) (pats : List PromptPat) (output : List Char),
      (∀ k, k ≤ evs.length → ∀ p ∈ pats,
        matchesPat true p (output ++ (evs.take k).filterMap id) = false) →
      readUntil pats output evs =
        .error (.timeoutErr pats (output ++ evs.filterMap id)) := by
  intro evs
  induction evs with
  | nil =>
    intro pats output _
    simp [readUntil]
  | cons e evs ih =>
    intro pats output H
    match e with
    | none =>
      have h2 := ih pats output (fun k hk p hp => by
        have := H (k + 1) (by simpa using hk) p hp
        simpa using this)
      simpa [readUntil] using h2
    | some c =>
      have hnone : (pats.find? (fun p => matchesPat true p (output ++ [c]))) = none := by
        rw [List.find?_eq_none]
        intro p hp
        have := H 1 (by simp) p hp
        simpa using this
      have h2 := ih pats (output ++ [c]) (fun k hk p hp => by
        have := H (k + 1) (by simpa using hk) p hp
        simpa [List.append_assoc] using this)
      simp only [readUntil, hnone]
      rw [h2]
      simp

/-- The telnet read loop: when no prompt matches any cumulative output it
reaches the deadline and returns everything collected, normally. -/
theorem telnetRead_timeout_general :
    ∀ (evs : List (Option (List Char))) (output : List Char),
      (∀ k, k ≤ evs.length →
        anyPrompt5 (output ++ ((evs.take k).filterMap id).flatten) = false) →
      telnetReadUntilPrompt output evs = output ++ (evs.filterMap id).flatten := by
  intro evs
  induction evs with
  | nil =>
    intro output _
    simp [telnetReadUntilPrompt]
  | cons e evs ih =>
    intro output H
    match e with
    | none =>
      have h2 := ih output (fun k hk => by
        have := H (k + 1) (by simpa using hk)
        simpa using this)
      simpa [telnetReadUntilPrompt] using h2
    | some d =>
      by_cases hd : d.isEmpty
      · have hdnil : d = [] := by simpa [List.isEmpty_iff] using hd
        subst hdnil
        have h2 := ih output (fun k hk => by
          have := H (k + 1) (by simpa using hk)
          simpa using this)
        simpa [telnetReadUntilPrompt] using h2
      · have hmatch : anyPrompt5 (output ++ d) = false := by
          have := H 1 (by simp)
          simpa using this
        have h2 := ih (output ++ d) (fun k hk => by
          have := H (k + 1) (by simpa using hk)
          simpa [List.append_assoc] using this)
        simp only [telnetReadUntilPrompt, hd, hmatch]
        rw [if_neg (by simp [hd]), if_neg (by simp [hmatch])]
        rw [h2]
        simp

/-- C3 (amended): for the Serial read loop, if the deadline elapses before
any expected pattern matches, _read_until raises the SerialConnectionError
that carries the patterns and the partial output collected — it does not
return normally; the Telnet _read_until_prompt, by contrast, returns the
partial output normally at the deadline and never raises. -/
theorem read_loop_deadline :
    (∀ (pats : List PromptPat) (evs : List (Option Char)),
       (∀ k, k ≤ evs.length → ∀ p ∈ pats,
         matchesPat true p ((evs.take k).filterMap id) = false) →
       readUntil pats [] evs = .error (.timeoutErr pats (evs.filterMap id))) ∧
    (∀ (evs : List (Option (List Char))),
       (∀ k, k ≤ evs.length →
         anyPrompt5 (((evs.take k).filterMap id).flatten) = false) →
       telnetReadUntilPrompt [] evs = (evs.filterMap id).flatten) := by
  constructor
  · intro pats evs H
    have := readUntil_timeout_general evs pats [] (by simpa using H)
    simpa using this
  · intro evs H
    have := telnetRead_timeout_general evs [] (by simpa using H)
    simpa using this

/-- C3 counterexample: a Telnet read window that ends with data but no
prompt — _read_until_prompt returns the partial output normally instead of
raising a timeout error. -/
theorem telnet_read_returns_on_timeout :
    telnetReadUntilPrompt [] [some "hello".data] = "hello".data ∧
    anyPrompt5 "hello".data = false := by
  constructor
  · decide
  · decide

/-- C3 witness: concrete deadline windows for both loops. -/
theorem read_loop_deadline_witness :
    readUntil [.configP] [] [some 'x'] =
      .error (.timeoutErr [.configP] ['x']) ∧
    telnetReadUntilPrompt [] [some "hi".data] = "hi".data :=
  ⟨read_loop_deadline.1 [.configP] [some 'x'] (by decide),
   by
     have h := read_loop_deadline.2 [some "hi".data] (by decide)
     simpa using h⟩

/-- Writing to the socket preserves everything already sent. -/
theorem telnetWrite_mem :
    ∀ (st : TelnetState) (d : String) s x, st.socket = some s → x ∈ s.sent →
      ∃ s', (telnetWrite st d).socket = some s' ∧ x ∈ s'.sent := by
  intro st d s x hs hx
  refine ⟨{ s with sent := s.sent ++ [d] }, ?_, ?_⟩
  · simp [telnetWrite, hs]
  · exact List.mem_append_left _ hx

/-- The password step preserves everything already sent. -/
theorem telnetHandshakePw_mem :
    ∀ (t : HandshakePos) s x, t.1.socket = some s → x ∈ s.sent →
      ∃ s', (telnetHandshakePw t).1.socket = some s' ∧ x ∈ s'.sent := by
  intro t s x hs hx
  unfold telnetHandshakePw
  split
  · split
    · exact telnetWrite_mem t.1 _ s x hs hx
    · exact telnetWrite_mem t.1 _ s x hs hx
  · exact ⟨s, hs, hx⟩

/-- The Press-RETURN step preserves everything already sent. -/
theorem telnetHandshakeRet_mem :
    ∀ (t : HandshakePos) s x, t.1.socket = some s → x ∈ s.sent →
      ∃ s', (telnetHandshakeRet t).1.socket = some s' ∧ x ∈ s'.sent := by
  intro t s x hs hx
  unfold telnetHandshakeRet
  split
  · exact telnetWrite_mem t.1 _ s x hs hx
  · exact ⟨s, hs, hx⟩

/-- The dialog step preserves everything already sent. -/
theorem telnetHandshakeDlg_mem :
    ∀ (t : HandshakePos) s x, t.1.socket = some s → x ∈ s.sent →
      ∃ s', (telnetHandshakeDlg t).socket = some s' ∧ x ∈ s'.sent := by
  intro t s x hs hx
  unfold telnetHandshakeDlg
  split
  · exact telnetWrite_mem t.1 _ s x hs hx
  · exact ⟨s, hs, hx⟩

/-- C8: a Telnet transport configured without a password that sees a
password prompt (and no username prompt) during the handshake sends a
bare newline and completes the handshake without raising; the
missing-username case, by contrast, is fatal. -/
theorem telnet_handshake_no_password :
    (∀ (st : TelnetState) (sock : TelnetSocket) out1 rest,
       st.socket = some sock →
       st.password = none →
       usernameSearch out1 = false →
       passwordSearch out1 = true →
       ∃ st', telnetHandshake st (out1 :: rest) = .ok st' ∧
         ∃ s', st'.socket = some s' ∧ "\r\n" ∈ s'.sent) ∧
    (∀ (st : TelnetState) out1 rest,
       st.username = none →
       usernameSearch out1 = true →
       telnetHandshake st (out1 :: rest) =
         .error (.usernameRequired "Username required but not provided")) := by
  constructor
  · intro st sock out1 rest hsock hpw huser hpass
    have hpos : telnetHandshakePw (st, out1, rest) =
        (telnetWrite st "\r\n", (popReads rest).1, (popReads rest).2) := by
      simp [telnetHandshakePw, hpass, hpw]
    have hmem0 : ∃ s', (telnetWrite st "\r\n").socket = some s' ∧
        ("\r\n" : String) ∈ s'.sent := by
      refine ⟨{ sock with sent := sock.sent ++ ["\r\n"] }, ?_, ?_⟩
      · simp [telnetWrite, hsock]
      · exact List.mem_append_right _ (List.mem_singleton_self _)
    obtain ⟨s0, hs0, hx0⟩ := hmem0
    obtain ⟨s1, hs1, hx1⟩ :=
      telnetHandshakeRet_mem (telnetHandshakePw (st, out1, rest)) s0 "\r\n"
        (by rw [hpos]; exact hs0) hx0
    obtain ⟨s2, hs2, hx2⟩ :=
      telnetHandshakeDlg_mem (telnetHandshakeRet (telnetHandshakePw (st, out1, rest)))
        s1 "\r\n" hs1 hx1
    refine ⟨telnetHandshakeStep2 st out1 rest, ?_, s2, hs2, hx2⟩
    simp [telnetHandshake, popReads, huser]
  · intro st out1 rest huname hsearch
    simp [telnetHandshake, popReads, hsearch, huname]

/-- C8 witness: a concrete handshake for a transport with a username but
no password, seeing only a password prompt; and the fatal missing-username
case. -/
theorem telnet_handshake_no_password_witness :
    (∃ st', telnetHandshake
        { telnetSessionEx with password := none, in_enable_mode := false }
        ["Password: ".data] = .ok st' ∧
      ∃ s', st'.socket = some s' ∧ "\r\n" ∈ s'.sent) ∧
    telnetHandshake
        { telnetSessionEx with username := none, in_enable_mode := false }
        ["Username: ".data] =
      .error (.usernameRequired "Username required but not provided") :=
  ⟨telnet_handshake_no_password.1
     { telnetSessionEx with password := none, in_enable_mode := false }
     { sent := [] } "Password: ".data [] (by decide) (by decide) (by decide)
     (by decide),
   telnet_handshake_no_password.2
     { telnetSessionEx with username := none, in_enable_mode := false }
     "Username: ".data [] (by decide) (by decide)⟩

/-- C4 counterexample: starting from a catalog that is in sync with disk
(both empty), update_command leaves the in-memory catalog different from
the on-disk one — it does not call save_commands. -/
theorem update_command_not_persisted :
    (updateCommandOp ([], []) "vlan_commands" "create_vlan" "vlan {vlan_id}"
        "" none none).1 ≠
    (updateCommandOp ([], []) "vlan_commands" "create_vlan" "vlan {vlan_id}"
        "" none none).2 := by
  decide

/-- C4 (amended): of the three mutating operations, add_new_category and
remove_command persist the catalog to disk immediately (the disk equals
memory afterwards whenever they started in sync), while update_command
mutates only the in-memory catalog and leaves the disk untouched until an
explicit save_commands. -/
theorem catalog_mutation_persistence :
    ∀ (mem disk : Catalog), mem = disk →
      (∀ category,
        (addNewCategoryOp (mem, disk) category).1 =
        (addNewCategoryOp (mem, disk) category).2) ∧
      (∀ category name,
        (removeCommandOp (mem, disk) category name).1 =
        (removeCommandOp (mem, disk) category name).2) ∧
      (∀ category name cmd er pp sub,
        (updateCommandOp (mem, disk) category name cmd er pp sub).2 = disk) := by
  intro mem disk h
  subst h
  refine ⟨?_, ?_, ?_⟩
  · intro category
    unfold addNewCategoryOp
    split <;> rfl
  · intro category name
    unfold removeCommandOp
    split
    · split <;> rfl
    · rfl
  · intro category name cmd er pp sub
    rfl

/-- C4 witness: a concrete in-sync catalog run through both persisting
operations and update_command. -/
theorem catalog_mutation_persistence_witness :
    (addNewCategoryOp (vlanCatalog, vlanCatalog) "stp_commands").1 =
      (addNewCategoryOp (vlanCatalog, vlanCatalog) "stp_commands").2 ∧
    (removeCommandOp (vlanCatalog, vlanCatalog) "vlan_commands" "create_vlan").1 =
      (removeCommandOp (vlanCatalog, vlanCatalog) "vlan_commands" "create_vlan").2 ∧
    (updateCommandOp (vlanCatalog, vlanCatalog) "vlan_commands" "delete_vlan"
        "no vlan {vlan_id}" "" none none).2 = vlanCatalog :=
  ⟨(catalog_mutation_persistence vlanCatalog vlanCatalog rfl).1 "stp_commands",
   (catalog_mutation_persistence vlanCatalog vlanCatalog rfl).2.1
     "vlan_commands" "create_vlan",
   (catalog_mutation_persistence vlanCatalog vlanCatalog rfl).2.2
     "vlan_commands" "delete_vlan" "no vlan {vlan_id}" "" none none⟩

/-- C10: verify_response returns true and cannot raise whenever the
command has no non-empty expected response: a missing category or
command, a missing or empty expected_response field, and a formatting
KeyError all make get_expected_response return "" and verify_response
return true; only a non-empty formatted expected template is checked, by
substring containment. -/
theorem verify_response_spec :
    (∀ (cm : Catalog) cat name resp kwargs,
       lookupCommandDef cm cat name = none →
       get_expected_response cm cat name kwargs = .ok "" ∧
       verify_response cm cat name resp kwargs = .ok true) ∧
    (∀ (cm : Catalog) cat name resp kwargs cd,
       lookupCommandDef cm cat name = some cd →
       (cd.expected_response = none ∨ cd.expected_response = some "") →
       verify_response cm cat name resp kwargs = .ok true) ∧
    (∀ (cm : Catalog) cat name resp kwargs cd t k,
       lookupCommandDef cm cat name = some cd →
       cd.expected_response = some t →
       pyFormat t kwargs = .error (.missingParam k) →
       verify_response cm cat name resp kwargs = .ok true) ∧
    (∀ (cm : Catalog) cat name resp kwargs s,
       get_expected_response cm cat name kwargs = .ok s →
       s ≠ "" →
       verify_response cm cat name resp kwargs =
         .ok (containsSub s.data resp.data)) := by
  refine ⟨?_, ?_, ?_, ?_⟩
  · intro cm cat name resp kwargs h
    constructor
    · simp [get_expected_response, h]
    · simp [verify_response, get_expected_response, h]
  · intro cm cat name resp kwargs cd h hexp
    rcases hexp with he | he <;>
      simp [verify_response, get_expected_response, h, he, pyFormat, fmtAux]
  · intro cm cat name resp kwargs cd t k h hexp hfmt
    simp [verify_response, get_expected_response, h, hexp, hfmt]
  · intro cm cat name resp kwargs s h hne
    simp [verify_response, h, hne]

/-- C10 witness: the lookup-failure, empty-expected and substring paths
at concrete inputs. -/
theorem verify_response_spec_witness :
    verify_response vlanCatalog "no_such" "cmd" "anything" [] = .ok true ∧
    verify_response vlanCatalog "vlan_commands" "create_vlan" "anything" [] = .ok true ∧
    verify_response verifyCatalog "c" "n" "VLAN0010 active" [] =
      .ok (containsSub "VLAN0010".data "VLAN0010 active".data) :=
  ⟨(verify_response_spec.1 vlanCatalog "no_such" "cmd" "anything" [] (by decide)).2,
   verify_response_spec.2.1 vlanCatalog "vlan_commands" "create_vlan" "anything" []
     { command := "vlan {vlan_id}\n name {vlan_name}", expected_response := some "" }
     (by decide) (Or.inr (by decide)),
   verify_response_spec.2.2.2 verifyCatalog "c" "n" "VLAN0010 active" []
     "VLAN0010" (by decide) (by decide)⟩

theorem phAux_norm_ne (c : Char) (r : List Char) (h1 : ¬ c = '{') (h2 : ¬ c = '}') :
    phAux .norm (c :: r) = phAux .norm r := by
  rw [phAux.eq_def]
  split <;> simp_all

theorem phAux_sawL_ne (c : Char) (r : List Char) (h1 : ¬ c = '{') (h2 : ¬ c = '}') :
    phAux .sawL (c :: r) = phAux (.key [c]) r := by
  rw [phAux.eq_def]
  split <;> simp_all

theorem phAux_key_ne (acc : List Char) (c : Char) (r : List Char) (h2 : ¬ c = '}') :
    phAux (.key acc) (c :: r) = phAux (.key (acc ++ [c])) r := by
  rw [phAux.eq_def]
  split <;> simp_all

theorem phAux_key_brace (acc r : List Char) :
    phAux (.key acc) ('}' :: r) = (phAux .norm r).map (fun ns => String.mk acc :: ns) := by
  rw [phAux.eq_def]
  split <;> simp_all [eq_comm]

theorem fmtAux_key_brace (kwargs : List (String × String)) (acc r : List Char) :
    fmtAux kwargs (.key acc) ('}' :: r) =
      match lookupParam kwargs (String.mk acc) with
      | some v =>
        match fmtAux kwargs .norm r with
        | .ok s => .ok (v.data ++ s)
        | .error e => .error e
      | none => .error (.missingParam (String.mk acc)) := by
  rw [fmtAux.eq_def]
  split <;> simp_all [eq_comm]

theorem fmtAux_norm_ne (kwargs : List (String × String)) (c : Char) (r : List Char)
    (h1 : ¬ c = '{') (h2 : ¬ c = '}') :
    fmtAux kwargs .norm (c :: r) =
      match fmtAux kwargs .norm r with
      | .ok s => .ok (c :: s)
      | .error e => .error e := by
  rw [fmtAux.eq_def]
  split <;> simp_all

theorem fmtAux_sawL_ne (kwargs : List (String × String)) (c : Char) (r : List Char)
    (h1 : ¬ c = '{') (h2 : ¬ c = '}') :
    fmtAux kwargs .sawL (c :: r) = fmtAux kwargs (.key [c]) r := by
  rw [fmtAux.eq_def]
  split <;> simp_all

theorem fmtAux_key_ne (kwargs : List (String × String)) (acc : List Char) (c : Char)
    (r : List Char) (h2 : ¬ c = '}') :
    fmtAux kwargs (.key acc) (c :: r) = fmtAux kwargs (.key (acc ++ [c])) r := by
  rw [fmtAux.eq_def]
  split <;> simp_all

theorem fmtAux_missing (kwargs : List (String × String)) :
    ∀ (stt : FSt) (l : List Char) (names : List String),
      phAux stt l = some names →
      (∃ p ∈ names, lookupParam kwargs p = none) →
      ∃ q, q ∈ names ∧ lookupParam kwargs q = none ∧
        fmtAux kwargs stt l = .error (.missingParam q) := by
  intro stt l
  induction stt, l using fmtAux.induct kwargs
  all_goals intro names hph hex
  -- norm []
  case case1 =>
    simp [phAux] at hph
    subst hph
    simp at hex
  -- norm '{' :: r
  case case2 =>
    rename_i r ih
    simp only [phAux] at hph
    obtain ⟨q, hq, hlq, hfq⟩ := ih names hph hex
    exact ⟨q, hq, hlq, by simp only [fmtAux]; exact hfq⟩
  -- norm '}' :: r
  case case3 =>
    rename_i r ih
    simp only [phAux] at hph
    obtain ⟨q, hq, hlq, hfq⟩ := ih names hph hex
    exact ⟨q, hq, hlq, by simp only [fmtAux]; exact hfq⟩
  -- norm c :: r, recursion returned ok
  case case4 =>
    rename_i c r h1 h2 s hok ih
    rw [phAux_norm_ne c r (fun h => h1 h) (fun h => h2 h)] at hph
    obtain ⟨q, hq, hlq, hfq⟩ := ih names hph hex
    rw [hok] at hfq
    simp at hfq
  -- norm c :: r, recursion returned error
  case case5 =>
    rename_i c r h1 h2 e herr ih
    rw [phAux_norm_ne c r (fun h => h1 h) (fun h => h2 h)] at hph
    obtain ⟨q, hq, hlq, hfq⟩ := ih names hph hex
    rw [herr] at hfq
    refine ⟨q, hq, hlq, ?_⟩
    rw [fmtAux_norm_ne kwargs c r (fun h => h1 h) (fun h => h2 h), herr]
    simp [hfq]
  -- sawL []
  case case6 =>
    simp [phAux] at hph
  -- sawL '{' :: r, recursion ok
  case case7 =>
    rename_i r s hok ih
    simp only [phAux] at hph
    obtain ⟨q, hq, hlq, hfq⟩ := ih names hph hex
    rw [hok] at hfq
    simp at hfq
  -- sawL '{' :: r, recursion error
  case case8 =>
    rename_i r e herr ih
    simp only [phAux] at hph
    obtain ⟨q, hq, hlq, hfq⟩ := ih names hph hex
    rw [herr] at hfq
    refine ⟨q, hq, hlq, ?_⟩
    simp only [fmtAux]
    rw [herr]
    simp [hfq]
  -- sawL '}' :: r
  case case9 =>
    simp [phAux] at hph
  -- sawL c :: r, start of a key
  case case10 =>
    rename_i c r h1 h2 ih
    rw [phAux_sawL_ne c r (fun h => h1 h) (fun h => h2 h)] at hph
    obtain ⟨q, hq, hlq, hfq⟩ := ih names hph hex
    refine ⟨q, hq, hlq, ?_⟩
    rw [fmtAux_sawL_ne kwargs c r (fun h => h1 h) (fun h => h2 h)]
    exact hfq
  -- sawR '}' :: r, recursion ok
  case case11 =>
    rename_i r s hok ih
    simp only [phAux] at hph
    obtain ⟨q, hq, hlq, hfq⟩ := ih names hph hex
    rw [hok] at hfq
    simp at hfq
  -- sawR '}' :: r, recursion error
  case case12 =>
    rename_i r e herr ih
    simp only [phAux] at hph
    obtain ⟨q, hq, hlq, hfq⟩ := ih names hph hex
    rw [herr] at hfq
    refine ⟨q, hq, hlq, ?_⟩
    simp only [fmtAux]
    rw [herr]
    simp [hfq]
  -- sawR, anything else
  case case13 =>
    rw [phAux.eq_def] at hph
    split at hph <;> simp_all
  -- key acc []
  case case14 =>
    simp [phAux] at hph
  -- key acc '}' :: r, param present, recursion ok
  case case15 =>
    rename_i acc r v hlook s hok ih
    rw [phAux_key_brace] at hph
    cases hm : phAux FSt.norm r with
    | none => rw [hm] at hph; simp at hph
    | some ns =>
      rw [hm] at hph
      simp only [Option.map_some', Option.some.injEq] at hph
      subst hph
      rcases hex with ⟨p, hp, hlp⟩
      rcases List.mem_cons.mp hp with hp1 | hp2
      · subst hp1
        rw [hlp] at hlook
        simp at hlook
      · obtain ⟨q, hq, hlq, hfq⟩ := ih ns hm ⟨p, hp2, hlp⟩
        rw [hok] at hfq
        simp at hfq
  -- key acc '}' :: r, param present, recursion error
  case case16 =>
    rename_i acc r v hlook e herr ih
    rw [phAux_key_brace] at hph
    cases hm : phAux FSt.norm r with
    | none => rw [hm] at hph; simp at hph
    | some ns =>
      rw [hm] at hph
      simp only [Option.map_some', Option.some.injEq] at hph
      subst hph
      rcases hex with ⟨p, hp, hlp⟩
      rcases List.mem_cons.mp hp with hp1 | hp2
      · subst hp1
        rw [hlp] at hlook
        simp at hlook
      · obtain ⟨q, hq, hlq, hfq⟩ := ih ns hm ⟨p, hp2, hlp⟩
        rw [herr] at hfq
        refine ⟨q, List.mem_cons_of_mem _ hq, hlq, ?_⟩
        rw [fmtAux_key_brace, hlook, herr]
        simp [hfq]
  -- key acc '}' :: r, param missing
  case case17 =>
    rename_i acc r hlook
    rw [phAux_key_brace] at hph
    cases hm : phAux FSt.norm r with
    | none => rw [hm] at hph; simp at hph
    | some ns =>
      rw [hm] at hph
      simp only [Option.map_some', Option.some.injEq] at hph
      subst hph
      refine ⟨String.mk acc, List.mem_cons_self _ _, hlook, ?_⟩
      rw [fmtAux_key_brace, hlook]
  -- key acc c :: r, continue the key
  case case18 =>
    rename_i acc c r h2 ih
    rw [phAux_key_ne acc c r (fun h => h2 h)] at hph
    obtain ⟨q, hq, hlq, hfq⟩ := ih names hph hex
    refine ⟨q, hq, hlq, ?_⟩
    rw [fmtAux_key_ne kwargs acc c r (fun h => h2 h)]
    exact hfq
/-- C5: format_command is a pure function of its arguments (calling it
twice yields the same result), end-to-end scenario 1 produces exactly
"vlan 10\n name TEST_VLAN", and omitting a named placeholder required by
the command template always yields the missing-parameter ValueError,
never a blank substitution. -/
theorem format_command_pure :
    (∀ (cm : Catalog) cat name kwargs,
       format_command cm cat name kwargs = format_command cm cat name kwargs) ∧
    format_command vlanCatalog "vlan_commands" "create_vlan"
        [("vlan_id", "10"), ("vlan_name", "TEST_VLAN")] =
      .ok "vlan 10\n name TEST_VLAN" ∧
    (∀ (cm : Catalog) cat name kwargs cd names p,
       lookupCommandDef cm cat name = some cd →
       requiredPlaceholders cd.command = some names →
       p ∈ names →
       lookupParam kwargs p = none →
       ∃ q, q ∈ names ∧ lookupParam kwargs q = none ∧
         format_command cm cat name kwargs = .error (.valueMissing q)) := by
  refine ⟨fun cm cat name kwargs => rfl, by decide, ?_⟩
  intro cm cat name kwargs cd names p hlook hph hp hlp
  obtain ⟨q, hq, hlq, hfq⟩ :=
    fmtAux_missing kwargs .norm cd.command.data names hph ⟨p, hp, hlp⟩
  refine ⟨q, hq, hlq, ?_⟩
  simp only [format_command, hlook, pyFormat, hfq]

/-- C5 witness: formatting create_vlan without its vlan_id parameter
fails with a missing-parameter error. -/
theorem format_command_pure_witness :
    ∃ q, q ∈ ["vlan_id", "vlan_name"] ∧
      lookupParam [("vlan_name", "TEST_VLAN")] q = none ∧
      format_command vlanCatalog "vlan_commands" "create_vlan"
        [("vlan_name", "TEST_VLAN")] = .error (.valueMissing q) :=
  format_command_pure.2.2 vlanCatalog "vlan_commands" "create_vlan"
    [("vlan_name", "TEST_VLAN")]
    { command := "vlan {vlan_id}\n name {vlan_name}", expected_response := some "" }
    ["vlan_id", "vlan_name"] "vlan_id" (by decide) (by decide) (by decide) (by decide)

theorem finditerScan_lb :
    ∀ (p l : List Char) (off skip j : Nat),
      j ∈ finditerScan p l off skip → off + skip ≤ j := by
  intro p l
  induction l with
  | nil =>
    intro off skip j hj
    simp only [finditerScan] at hj
    split at hj
    · rename_i hc
      simp at hj hc
      subst hj
      omega
    · simp at hj
  | cons c r ih =>
    intro off skip j hj
    simp only [finditerScan] at hj
    split at hj
    · rename_i hskip
      subst hskip
      split at hj
      · rcases List.mem_cons.mp hj with h1 | h2
        · omega
        · have := ih (off + 1) (p.length - 1) j h2
          omega
      · have := ih (off + 1) 0 j hj
        omega
    · rename_i hskip
      have := ih (off + 1) (skip - 1) j hj
      omega

theorem finditerScan_chain :
    ∀ (p l : List Char) (off skip : Nat),
      List.Chain' (fun a b => a + max p.length 1 ≤ b) (finditerScan p l off skip) := by
  intro p l
  induction l with
  | nil =>
    intro off skip
    simp only [finditerScan]
    split
    · simp
    · simp
  | cons c r ih =>
    intro off skip
    simp only [finditerScan]
    split
    · split
      · rename_i hskip hpre
        rw [List.chain'_cons']
        refine ⟨?_, ih (off + 1) (p.length - 1)⟩
        intro b hb
        have hmem : b ∈ finditerScan p r (off + 1) (p.length - 1) :=
          List.mem_of_mem_head? hb
        have := finditerScan_lb p r (off + 1) (p.length - 1) b hmem
        have hlen : p.length = 0 ∨ 1 ≤ p.length := by omega
        rcases hlen with h0 | h1
        · simp [h0] at this ⊢
          omega
        · rw [Nat.max_eq_left h1]
          omega
      · exact ih (off + 1) 0
    · exact ih (off + 1) (skip - 1)

theorem finditerScan_occurs :
    ∀ (p l : List Char) (off skip j : Nat),
      j ∈ finditerScan p l off skip →
      off ≤ j ∧ p.isPrefixOf (l.drop (j - off)) = true := by
  intro p l
  induction l with
  | nil =>
    intro off skip j hj
    simp only [finditerScan] at hj
    split at hj
    · rename_i hc
      simp at hj hc
      subst hj
      simp [hc.2]
    · simp at hj
  | cons c r ih =>
    intro off skip j hj
    simp only [finditerScan] at hj
    split at hj
    · split at hj
      · rename_i hskip hpre
        rcases List.mem_cons.mp hj with h1 | h2
        · subst h1
          simp [hpre]
        · obtain ⟨hle, hocc⟩ := ih (off + 1) (p.length - 1) j h2
          refine ⟨by omega, ?_⟩
          have : j - off = (j - (off + 1)) + 1 := by omega
          rw [this, List.drop_succ_cons]
          exact hocc
      · obtain ⟨hle, hocc⟩ := ih (off + 1) 0 j hj
        refine ⟨by omega, ?_⟩
        have : j - off = (j - (off + 1)) + 1 := by omega
        rw [this, List.drop_succ_cons]
        exact hocc
    · obtain ⟨hle, hocc⟩ := ih (off + 1) (skip - 1) j hj
      refine ⟨by omega, ?_⟩
      have : j - off = (j - (off + 1)) + 1 := by omega
      rw [this, List.drop_succ_cons]
      exact hocc

theorem finditerScan_nil_of_no_occurrence :
    ∀ (p l : List Char) (off skip : Nat), p ≠ [] →
      (∀ j, ¬ p.isPrefixOf (l.drop j) = true) →
      finditerScan p l off skip = [] := by
  intro p l
  induction l with
  | nil =>
    intro off skip hp _
    simp only [finditerScan]
    split
    · rename_i hc
      simp at hc
      exact absurd hc.2 (by simpa using hp)
    · rfl
  | cons c r ih =>
    intro off skip hp hno
    simp only [finditerScan]
    split
    · split
      · rename_i hskip hpre
        exact absurd hpre (by simpa using hno 0)
      · exact ih (off + 1) 0 hp (fun j => by simpa using hno (j + 1))
    · exact ih (off + 1) (skip - 1) hp (fun j => by simpa using hno (j + 1))

/-- C6 (amended): parse_response returns the raw response as a one-element
list when no parse pattern is configured and also when the configured
pattern is the empty string (Python truthiness); for a configured
non-empty (literal) pattern it returns exactly the re.finditer matches:
in order of appearance, non-overlapping (consecutive match positions at
least the pattern length apart), each an occurrence of the pattern, and
empty when the pattern occurs nowhere. -/
theorem parse_response_spec :
    ∀ (cm : Catalog) (cat name resp : String),
      (get_parse_pattern cm cat name = none →
        parse_response cm cat name resp = [resp]) ∧
      (get_parse_pattern cm cat name = some "" →
        parse_response cm cat name resp = [resp]) ∧
      (∀ p, get_parse_pattern cm cat name = some p → p ≠ "" →
        parse_response cm cat name resp =
          (reFinditer p.data resp.data).map String.mk ∧
        List.Chain' (fun a b => a + p.data.length ≤ b)
          (reFinditerPos p.data resp.data) ∧
        (∀ j ∈ reFinditerPos p.data resp.data,
          p.data.isPrefixOf (resp.data.drop j) = true) ∧
        ((∀ j, ¬ p.data.isPrefixOf (resp.data.drop j) = true) →
          reFinditer p.data resp.data = [])) := by
  intro cm cat name resp
  refine ⟨?_, ?_, ?_⟩
  · intro h
    simp [parse_response, h]
  · intro h
    simp [parse_response, h]
  · intro p hp hne
    have hdata : p.data ≠ [] := fun hd => hne (by cases p; simp_all)
    refine ⟨by simp [parse_response, hp, hne], ?_, ?_, ?_⟩
    · have hch := finditerScan_chain p.data resp.data 0 0
      have hmax : max p.data.length 1 = p.data.length :=
        Nat.max_eq_left (by
          cases hd : p.data with
          | nil => exact absurd hd hdata
          | cons a t => simp)
      rw [hmax] at hch
      exact hch
    · intro j hj
      have := (finditerScan_occurs p.data resp.data 0 0 j hj).2
      simpa using this
    · intro hno
      simp [reFinditer, reFinditerPos,
        finditerScan_nil_of_no_occurrence p.data resp.data 0 0 hdata hno]

/-- C6 counterexample: a configured empty-string parse pattern is treated
like no pattern — parse_response returns the raw response, not the
re.finditer match list of the empty pattern (two empty matches on a
one-character response). -/
theorem parse_response_empty_pattern :
    parse_response emptyPatternCatalog "c" "n" "a" = ["a"] ∧
    (reFinditer "".data "a".data).map String.mk = ["", ""] ∧
    parse_response emptyPatternCatalog "c" "n" "a" ≠
      (reFinditer "".data "a".data).map String.mk := by
  exact ⟨by decide, by decide, by decide⟩

/-- C6 witness: the no-pattern identity path and a configured non-empty
pattern path at concrete inputs. -/
theorem parse_response_spec_witness :
    parse_response vlanCatalog "vlan_commands" "create_vlan" "raw text" =
      ["raw text"] ∧
    parse_response patternCatalog "c" "n" "VLAN 10 VLAN" =
      (reFinditer "VLAN".data "VLAN 10 VLAN".data).map String.mk :=
  ⟨(parse_response_spec vlanCatalog "vlan_commands" "create_vlan" "raw text").1
     (by decide),
   ((parse_response_spec patternCatalog "c" "n" "VLAN 10 VLAN").2.2 "VLAN"
     (by decide) (by decide)).1⟩

end Theorems
